import Mathlib

/-!
Verification of the tradex session bridge (`src/tradex-cli/tradex/app.py` and
the TUI controller `src/tradex-tui/tradex_tui/app.py`) against its
natural-language specification.  Python values that flow through the bridge
are deeply embedded as `PyVal`; the bridge's pure classification, formatting
and serialization routines are translated function-by-function; stateful and
fallible code is modelled with explicit state passing and `Except`.
-/

namespace Tradex

/--
Deep embedding of the Python values reaching the bridge's serialization
helper: JSON-shaped data (strings, ints, floats, bools, `None`, lists and
string-keyed dicts, which is what the agent SDK delivers), `pathlib.Path`
values, and arbitrary other objects represented by their `str()` form.
A float is carried opaquely by its printed form: the bridge never computes
with it, it only passes it through.
-/
inductive PyVal where
  | str (s : String)
  | int (n : Int)
  | float (printed : String)
  | bool (b : Bool)
  | none
  | list (items : List PyVal)
  | dict (items : List (String × PyVal))
  | path (p : String)
  | obj (shown : String)
deriving Repr

mutual

/-- Structural equality of embedded values (Python `==` on JSON-shaped
data; distinct constructors — including distinct opaque objects — compare
unequal). -/
def pyval_beq : PyVal → PyVal → Bool
  | .str a, .str b => a == b
  | .int a, .int b => a == b
  | .float a, .float b => a == b
  | .bool a, .bool b => a == b
  | .none, .none => true
  | .list a, .list b => pyval_list_beq a b
  | .dict a, .dict b => pyval_items_beq a b
  | .path a, .path b => a == b
  | .obj a, .obj b => a == b
  | _, _ => false

def pyval_list_beq : List PyVal → List PyVal → Bool
  | [], [] => true
  | a :: as, b :: bs => pyval_beq a b && pyval_list_beq as bs
  | _, _ => false

def pyval_items_beq : List (String × PyVal) → List (String × PyVal) → Bool
  | [], [] => true
  | a :: as, b :: bs => (a.1 == b.1) && pyval_beq a.2 b.2 && pyval_items_beq as bs
  | _, _ => false

end

instance : BEq PyVal := ⟨pyval_beq⟩

mutual

/-- Embedding of `TradexApp._json_safe` (tradex-cli/tradex/app.py lines 295-304):
dicts recurse over values, lists recurse over items, `str`/`int`/`float`/
`bool`/`None` pass through, a `Path` and any other object become their
string form. -/
def json_safe : PyVal → PyVal
  | .dict items => .dict (json_safe_items items)
  | .list items => .list (json_safe_list items)
  | .str s => .str s
  | .int n => .int n
  | .float printed => .float printed
  | .bool b => .bool b
  | .none => .none
  | .path p => .str p
  | .obj shown => .str shown

/-- Value-wise recursion of `_json_safe` through a Python list. -/
def json_safe_list : List PyVal → List PyVal
  | [] => []
  | v :: rest => json_safe v :: json_safe_list rest

/-- Value-wise recursion of `_json_safe` through a Python dict: keys pass
through unchanged (`{k: self._json_safe(v) for k, v in data.items()}`). -/
def json_safe_items : List (String × PyVal) → List (String × PyVal)
  | [] => []
  | kv :: rest => (kv.1, json_safe kv.2) :: json_safe_items rest

end

mutual

/-- A value is JSON-representable when it is built only from dicts, lists,
strings, numbers, booleans and null: no `Path` and no opaque object. -/
def jsonReady : PyVal → Bool
  | .dict items => jsonReadyItems items
  | .list items => jsonReadyList items
  | .str _ => true
  | .int _ => true
  | .float _ => true
  | .bool _ => true
  | .none => true
  | .path _ => false
  | .obj _ => false

def jsonReadyList : List PyVal → Bool
  | [] => true
  | v :: rest => jsonReady v && jsonReadyList rest

def jsonReadyItems : List (String × PyVal) → Bool
  | [] => true
  | kv :: rest => jsonReady kv.2 && jsonReadyItems rest

end

/-! ### Duration formatting (`TradexApp._format_duration`) -/
/-- Python zero-padding of a non-negative count to two digits (the 02d format). -/
def fmt02 (n : Nat) : String :=
  if n < 10 then "0" ++ toString n else toString n

/-- Embedding of `TradexApp._format_duration` (tradex-cli/tradex/app.py lines 336-360):
`None` gives `"0s"`; otherwise floor-divide the milliseconds by 1000, clamp
to `≥ 0`, decompose into hours/minutes/seconds; a part equal to zero is
dropped for hours and for minutes (`if hours:` / `if minutes:`), the seconds
part is always present; parts are joined with single spaces. -/
def _format_duration : Option Int → String
  | Option.none => "0s"
  | some duration_ms =>
    let total_seconds : Nat := (max 0 (Int.fdiv duration_ms 1000)).toNat
    let hours : Nat := total_seconds / 3600
    let minutes : Nat := (total_seconds % 3600) / 60
    let seconds : Nat := total_seconds % 60
    let parts : List String :=
      (if hours ≠ 0 then [fmt02 hours ++ "h"] else [])
        ++ (if minutes ≠ 0 then [fmt02 minutes ++ "m"] else [])
        ++ [fmt02 seconds ++ "s"]
    String.intercalate " " parts

/-- Written from the spec's words for comparison with `_format_duration`:
identical rule except that the minutes component is shown whenever the hours
component is present, even when the minutes count is zero ("once a larger
unit is shown, smaller ones are always shown down to seconds"). -/
def format_duration_spec : Option Int → String
  | Option.none => "0s"
  | some duration_ms =>
    let total_seconds : Nat := (max 0 (Int.fdiv duration_ms 1000)).toNat
    let hours : Nat := total_seconds / 3600
    let minutes : Nat := (total_seconds % 3600) / 60
    let seconds : Nat := total_seconds % 60
    let parts : List String :=
      (if hours ≠ 0 then [fmt02 hours ++ "h"] else [])
        ++ (if minutes ≠ 0 ∨ hours ≠ 0 then [fmt02 minutes ++ "m"] else [])
        ++ [fmt02 seconds ++ "s"]
    String.intercalate " " parts

/-- Written from the amended claim's words: the minutes component is omitted
whenever the minutes count is zero, regardless of whether hours is shown. -/
def format_duration_amended : Option Int → String
  | Option.none => "0s"
  | some duration_ms =>
    let total_seconds : Nat := (max 0 (Int.fdiv duration_ms 1000)).toNat
    let hours : Nat := total_seconds / 3600
    let minutes : Nat := (total_seconds % 3600) / 60
    let seconds : Nat := total_seconds % 60
    let parts : List String :=
      (if hours ≠ 0 then [fmt02 hours ++ "h"] else [])
        ++ (if minutes ≠ 0 then [fmt02 minutes ++ "m"] else [])
        ++ [fmt02 seconds ++ "s"]
    String.intercalate " " parts

/-! ### Cross-thread dispatcher (`AgentController._safe_call`) -/
/-- A Python exception as observed by `_safe_call`'s handler: whether it is
a `RuntimeError`, and whether its message contains `"call_from_thread"`. -/
structure PyError where
  is_runtime_error : Bool
  msg_has_call_from_thread : Bool
deriving Repr, DecidableEq

/-- The UI state read by `_safe_call` through `getattr`: the running flag,
`app._thread_id`, and the driver's `_thread_id` / `thread_id` fallbacks
(both `none` when there is no driver). -/
structure UIState where
  is_running : Bool
  app_thread_id : Option Nat
  driver_thread_id : Option Nat
  driver_thread_id_alt : Option Nat
deriving Repr, DecidableEq

/-- Python's `a or b` on optional thread identities: `None` and `0` are
falsy, anything else short-circuits. -/
def pyOrTid (a b : Option Nat) : Option Nat :=
  match a with
  | some n => if n = 0 then b else some n
  | Option.none => b

/-- The owning-thread identity `_safe_call` resolves: `app._thread_id` when
set, else `driver._thread_id or driver.thread_id`. -/
def resolved_thread_id (ui : UIState) : Option Nat :=
  match ui.app_thread_id with
  | some t => some t
  | Option.none => pyOrTid ui.driver_thread_id ui.driver_thread_id_alt

/-- Observable outcome of one `_safe_call` dispatch: how many times the
action ran synchronously in the caller's context, how many times
`call_from_thread` was invoked with it, and the exception propagated to the
caller, if any. -/
structure SafeCallResult where
  sync_runs : Nat
  marshal_calls : Nat
  raised : Option PyError
deriving Repr, DecidableEq

/-- Embedding of `AgentController._safe_call` (tradex-tui/tradex_tui/app.py lines 22-46).
`marshal_raises` is the behaviour of `app.call_from_thread` on this call:
`none` when it succeeds, `some e` when it raises `e`.  The code executes the
action inline when the app is not running, or when the resolved owning
thread id is not `None` and equals the current thread id; otherwise it
invokes `call_from_thread`, re-running the action inline only on a
`RuntimeError` whose message contains `"call_from_thread"`, and re-raising
anything else. -/
def _safe_call (ui : UIState) (current_thread_id : Nat)
    (marshal_raises : Option PyError) : SafeCallResult :=
  if ¬ ui.is_running then ⟨1, 0, Option.none⟩
  else
    let app_tid := resolved_thread_id ui
    if app_tid ≠ Option.none ∧ app_tid = some current_thread_id then
      ⟨1, 0, Option.none⟩
    else
      match marshal_raises with
      | Option.none => ⟨0, 1, Option.none⟩
      | some e =>
        if e.is_runtime_error then
          if e.msg_has_call_from_thread then ⟨1, 1, Option.none⟩
          else ⟨0, 1, some e⟩
        else ⟨0, 1, some e⟩

/-! ### Approval gate (`prompt_for_tool_approval` and the approval widget) -/
/-- The single-resolution completion slot backing a `PendingApproval`: an
`asyncio.Future` holding at most one boolean result. -/
structure PyFuture where
  result? : Option Bool
deriving Repr, DecidableEq

/-- Model of `asyncio.Future.set_result`: resolves an unresolved future with the
given value; called on an already-resolved future it raises
`InvalidStateError`, leaving the stored result untouched. -/
def PyFuture.set_result (f : PyFuture) (value : Bool) : Except String PyFuture :=
  match f.result? with
  | Option.none => .ok ⟨some value⟩
  | some _ => .error "InvalidStateError"

/-- Embedding of `ToolUseApprovalBlock.handle_list_view_selected` (tradex-tui message_log.py
lines 171-177): selecting index 0 (Accept) resolves the future with `True`,
any other index with `False`. -/
def handle_list_view_selected (f : PyFuture) (index : Nat) : Except String PyFuture :=
  if index = 0 then f.set_result true else f.set_result false

/-- The verdict values returned to the agent runtime. -/
inductive PermissionResult where
  | allow
  | deny
deriving Repr, DecidableEq

/-- Embedding of `TradexApp.prompt_for_tool_approval` (tradex-cli/tradex/app.py lines
276-283) once the awaited future has resolved with `result`: a truthy result
returns `PermissionResultAllow`, a falsy one `PermissionResultDeny`. -/
def prompt_for_tool_approval (result : Bool) : PermissionResult :=
  if result then .allow else .deny

/-! ### Extension registry (`TradexApp.init_extensions_from_config`,
tradex-cli/tradex/app.py lines 142-182) -/
/-- The Python exceptions observable in the modelled bridge paths. -/
inductive PyExn where
  | importError (path : String)
  | initError
  | osError
deriving Repr, DecidableEq

/-- What `inspect.signature` sees of an extension's `init_extension`, plus
whether the two possible calls raise: `init_func(config, controller)` and
`init_func(config, controller, ctx)`. -/
structure InitFunc where
  has_var_params : Bool
  param_count : Nat
  raises_two_arg : Bool
  raises_three_arg : Bool
deriving Repr, DecidableEq

/-- One imported extension module, as read through the four `getattr`
calls: `MCP_NAME`, `__mcp__` (the tool-server handle, abstracted to a
string), `__mcp_allowed_tools__` (default `[]`), `init_extension`. -/
structure ExtModule where
  MCP_NAME : Option String
  mcp : Option String
  mcp_allowed_tools : List String
  init_extension : Option InitFunc
deriving Repr, DecidableEq

/-- Signature inspection (app.py lines 170-175): the initializer receives a
third `ctx` argument when it declares variadic parameters or at least three
parameters. -/
def supports_ctx (f : InitFunc) : Bool :=
  f.has_var_params || decide (f.param_count ≥ 3)

/-- Whether the initializer call made on lines 165-179 raises, given whether
a `ctx` was supplied to `init_extensions_from_config`. -/
def init_call_raises (f : InitFunc) (has_ctx : Bool) : Bool :=
  if has_ctx then
    if supports_ctx f then f.raises_three_arg else f.raises_two_arg
  else f.raises_two_arg

/-- Python dict assignment `d[k] = v`: overwrite in place when the key
exists, else append the new binding. -/
def dict_set (d : List (Option String × Option String)) (k v : Option String) :
    List (Option String × Option String) :=
  if d.any (fun kv => kv.1 == k) then
    d.map (fun kv => if kv.1 == k then (k, v) else kv)
  else d ++ [(k, v)]

/-- The loop of `init_extensions_from_config`.  `env` is the module
resolver (`importlib.import_module`): it either raises or yields the module
with its conventional exports.  The import and the `getattr` reads sit
OUTSIDE the `try`, so a resolution failure propagates; the catalog insert,
the allowed-tools extension and the initializer call sit inside the `try`
whose handler does `continue`, so an initializer failure is swallowed after
the two mutations have already happened. -/
def init_extensions_loop (env : String → Except PyExn ExtModule) (has_ctx : Bool)
    (extension_enabled : List String) :
    List (Option String × Option String) → List String → List (String × String) →
    Except PyExn (List (Option String × Option String) × List String)
  | mcp_servers, allowed_tools, [] => .ok (mcp_servers, allowed_tools)
  | mcp_servers, allowed_tools, (k, path) :: rest =>
    if extension_enabled ≠ [] ∧ k ∉ extension_enabled then
      init_extensions_loop env has_ctx extension_enabled mcp_servers allowed_tools rest
    else
      match env path with
      | .error e => .error e
      | .ok m =>
        let mcp_servers' := dict_set mcp_servers m.MCP_NAME m.mcp
        let allowed_tools' := allowed_tools ++ m.mcp_allowed_tools
        let _init_raised : Bool :=
          match m.init_extension with
          | some f => init_call_raises f has_ctx
          | Option.none => false
        init_extensions_loop env has_ctx extension_enabled mcp_servers' allowed_tools' rest

/-- Embedding of `TradexApp.init_extensions_from_config`: iterate the declared extensions
in configuration order, starting from an empty catalog and empty
allowed-tool list. -/
def init_extensions_from_config (env : String → Except PyExn ExtModule)
    (extension_config : List (String × String)) (extension_enabled : List String)
    (has_ctx : Bool) :
    Except PyExn (List (Option String × Option String) × List String) :=
  init_extensions_loop env has_ctx extension_enabled [] [] extension_config

/-- A declared extension module whose exports are complete and whose
initializer succeeds. -/
def ext_module_ok (name : String) : ExtModule :=
  ⟨some name, some ("handle_" ++ name), ["mcp__" ++ name ++ "__tool"], some ⟨false, 2, false, false⟩⟩

/-- A declared extension module whose initializer raises however called. -/
def ext_module_bad_init (name : String) : ExtModule :=
  ⟨some name, some ("handle_" ++ name), ["mcp__" ++ name ++ "__tool"], some ⟨false, 2, true, true⟩⟩

/-- The MCP registry name exported by the module `env` resolves at `path`
(`none` as well when the import fails, a case excluded by hypothesis where
this is used). -/
def env_name (env : String → Except PyExn ExtModule) (path : String) : Option String :=
  match env path with
  | .ok m => m.MCP_NAME
  | .error _ => Option.none

/-! ### Session lifecycle (`_append_session_event`, `_save_session_history`,
`on_exit`; tradex-cli/tradex/app.py lines 50-53, 285-293, 306-325) -/
/-- Python truthiness of an optional string: `None` and `""` are falsy, so
`not self.session_id` holds exactly here. -/
def pyFalsyStr : Option String → Bool
  | Option.none => true
  | some s => s == ""

/-- The `TradexApp` fields the session-lifecycle methods read and write. -/
structure AppState where
  session_id : Option String
  session_started_at : Option String
  session_history : List PyVal
  storage_root : Option String
  base_cwd : Option String
  cwd : Option String
deriving Repr

/-- Embedding of `TradexApp._append_session_event`: a no-op before the session id is
set; otherwise appends the record `{event, timestamp, payload}` with the
payload passed through `_json_safe`. -/
def _append_session_event (st : AppState) (event : String) (payload : PyVal)
    (now : String) : AppState :=
  if pyFalsyStr st.session_id then st
  else
    { st with
      session_history := st.session_history ++
        [PyVal.dict [("event", .str event), ("timestamp", .str now),
          ("payload", json_safe payload)]] }

/-- The sessions root directory resolved by `_save_session_history` lines
309-313: `storage_root`, else `base_cwd / ".tradex"`, else
`(cwd or Path.cwd()) / ".tradex"`. -/
def save_root (st : AppState) (process_cwd : String) : String :=
  match st.storage_root with
  | some r => r
  | Option.none =>
    match st.base_cwd with
    | some b => b ++ "/.tradex"
    | Option.none =>
      match st.cwd with
      | some c => c ++ "/.tradex"
      | Option.none => process_cwd ++ "/.tradex"

/-- Behaviour of the file system during one save: whether
`session_dir.mkdir(parents=True, exist_ok=True)` raises, and whether the
open-and-`json.dump` of the history file raises. -/
structure SaveEnv where
  mkdir_raises : Bool
  dump_raises : Bool
deriving Repr, DecidableEq

/-- The per-session file written on a successful save: one JSON object with
`session_id`, `started_at`, `ended_at`, `cwd` and the ordered `history`. -/
structure SessionFile where
  root : String
  session_id : String
  started_at : Option String
  ended_at : String
  cwd : Option String
  history : List PyVal
deriving Repr

/-- Embedding of `TradexApp._save_session_history`: writes nothing before the session id
is set; otherwise creates the session directory and dumps the session data,
with no exception handling of its own — a failure of either file operation
raises. -/
def _save_session_history (st : AppState) (process_cwd : String) (env : SaveEnv)
    (now : String) : Except PyExn (Option SessionFile) :=
  if pyFalsyStr st.session_id then .ok Option.none
  else
    let root := save_root st process_cwd
    if env.mkdir_raises then .error .osError
    else if env.dump_raises then .error .osError
    else
      .ok (some
        { root := root
          session_id := st.session_id.getD ""
          started_at := st.session_started_at
          ended_at := now
          cwd := st.cwd
          history := st.session_history })

/-- Embedding of `TradexApp.on_exit`: calls `_save_session_history()` with no exception
handling, then disconnects the agent client (external, not modelled). -/
def on_exit (st : AppState) (process_cwd : String) (env : SaveEnv) (now : String) :
    Except PyExn (Option SessionFile) :=
  _save_session_history st process_cwd env now

/-! ### Event classifier (`TradexApp.handle_message`,
tradex-cli/tradex/app.py lines 194-274) -/
/-- A content block inside an `AssistantMessage` or `UserMessage`.  The
thinking block carries `getattr(content, "text", "")` as an optional
attribute; a tool-use input is the SDK's `dict[str, Any]`; a tool-result
has an optional error flag, arbitrary content and an optional call id. -/
inductive ContentBlock where
  | text (text : String)
  | thinking (text? : Option String)
  | toolUse (name : String) (input : List (String × PyVal)) (id : Option String)
  | toolResult (is_error : Option Bool) (content : PyVal) (tool_use_id : Option String)
deriving Repr

/-- The UI operations `handle_message` requests through the controller. -/
inductive UIAction where
  | add_message (text : String)
  | set_work_indicator (working : Bool) (message : Option String)
  | add_todo_list (todos : PyVal)
  | add_tool_use (name : String) (input : PyVal)
  | add_tool_use_result (is_error : Option Bool) (content : PyVal)
  | add_system_message (text : String)
deriving Repr

/-- An optional string as stored into a record payload. -/
def optStr : Option String → PyVal
  | some s => .str s
  | Option.none => .none

/-- An optional bool as stored into a record payload. -/
def optBool : Option Bool → PyVal
  | some b => .bool b
  | Option.none => .none

/-- Python truthiness of an embedded value (`if in_progress:`): `None`,
`""`, `0`, `False` and empty containers are falsy; a float is falsy exactly
when it prints as `"0.0"`; paths and opaque objects are truthy. -/
def pyTruthy : PyVal → Bool
  | .none => false
  | .str s => !(s == "")
  | .bool b => b
  | .int n => !(n == 0)
  | .float printed => !(printed == "0.0")
  | .list items => !items.isEmpty
  | .dict items => !items.isEmpty
  | .path _ => true
  | .obj _ => true

/-- Python `str()` of an embedded value, as used to build the progress
indicator text (container values are abbreviated: the indicator claims do
not depend on them). -/
def pyStr : PyVal → String
  | .str s => s
  | .int n => toString n
  | .bool b => if b then "True" else "False"
  | .none => "None"
  | .float printed => printed
  | .path p => p
  | .obj shown => shown
  | .list _ => "<list>"
  | .dict _ => "<dict>"

/-- The local `_handle_mcp_tool_use` of `handle_message`: a name starting
with `"mcp"` is cut down to the segment after the last `"__"`. -/
def _handle_mcp_tool_use (tool_name : String) : String :=
  if tool_name.startsWith "mcp" then (tool_name.splitOn "__").getLastD tool_name
  else tool_name

/-- Evaluation of `content.input.get("todos", [])` on the tool-use input dict. -/
def todos_of (input : List (String × PyVal)) : PyVal :=
  ((input.find? (fun kv => kv.1 == "todos")).map Prod.snd).getD (.list [])

/-- The search `next((item.get("content") for item in todos if isinstance(item, dict)
and item.get("status") == "in_progress"), None)`. -/
def find_in_progress (todos : PyVal) : Option PyVal :=
  match todos with
  | .list items =>
    items.findSome? fun item =>
      match item with
      | .dict kvs =>
        if ((kvs.find? (fun kv => kv.1 == "status")).map Prod.snd) == some (.str "in_progress")
        then some ((((kvs.find? (fun kv => kv.1 == "content")).map Prod.snd)).getD .none)
        else Option.none
      | _ => Option.none
  | _ => Option.none

/-- The progress text `indicator_message = "正在" + str(in_progress) if in_progress else
"Tradex is working in progress ..."`. -/
def indicator_of (todos : PyVal) : String :=
  match find_in_progress todos with
  | some v =>
    if pyTruthy v then "正在" ++ pyStr v else "Tradex is working in progress ..."
  | Option.none => "Tradex is working in progress ..."

/-- The accumulating assistant record `{"text_blocks": [], "tool_calls": [],
"thinking": []}`. -/
structure AssistantRecord where
  text_blocks : List String
  tool_calls : List PyVal
  thinking : List String
deriving Repr

/-- The flush test `if assistant_record["text_blocks"] or assistant_record["tool_calls"]
or assistant_record["thinking"]`. -/
def assistant_record_nonempty (r : AssistantRecord) : Bool :=
  !r.text_blocks.isEmpty || !r.tool_calls.isEmpty || !r.thinking.isEmpty

/-- The accumulated record as an `assistant_message` payload. -/
def assistant_payload (r : AssistantRecord) : PyVal :=
  .dict [("text_blocks", .list (r.text_blocks.map PyVal.str)),
         ("tool_calls", .list r.tool_calls),
         ("thinking", .list (r.thinking.map PyVal.str))]

/-- One entry of the record's tool-call list (app.py lines 233-239): the
stripped tool name, the JSON-safe input and the call id. -/
def tool_call_entry (tool_name : String) (input : List (String × PyVal))
    (id : Option String) : PyVal :=
  .dict [("tool_name", .str tool_name), ("input", json_safe (.dict input)),
         ("tool_use_id", optStr id)]

/-- The `assistant_todo` payload (app.py lines 226-229). -/
def todo_record_payload (todos : PyVal) (indicator : String) : PyVal :=
  .dict [("todos", json_safe todos), ("indicator", .str indicator)]

/-- The `AssistantMessage` arm of `handle_message` (app.py lines 202-241),
returning the requested UI actions and the `(event, payload)` records
handed to `_append_session_event`, both in emission order.  A `TodoWrite`
tool-use sets the indicator and renders the todo list, flushes the pending
`assistant_message` record if it has any content, appends the
`assistant_todo` record, and returns — the remaining content items are not
processed.  Any other tool-use is stripped, rendered and accumulated; text
accumulates and renders; thinking only accumulates. -/
def handle_assistant_content (acc : AssistantRecord) :
    List ContentBlock → List UIAction × List (String × PyVal)
  | [] =>
    ([],
     if assistant_record_nonempty acc then [("assistant_message", assistant_payload acc)]
     else [])
  | .text s :: rest =>
    let r := handle_assistant_content { acc with text_blocks := acc.text_blocks ++ [s] } rest
    (UIAction.add_message s :: r.1, r.2)
  | .thinking t? :: rest =>
    handle_assistant_content { acc with thinking := acc.thinking ++ [t?.getD ""] } rest
  | .toolUse name input id :: rest =>
    if name == "TodoWrite" then
      let todos := todos_of input
      let indicator := indicator_of todos
      ([UIAction.set_work_indicator true (some indicator), UIAction.add_todo_list todos],
       (if assistant_record_nonempty acc then [("assistant_message", assistant_payload acc)]
        else [])
         ++ [("assistant_todo", todo_record_payload todos indicator)])
    else
      let tool_name := _handle_mcp_tool_use name
      let r := handle_assistant_content
        { acc with tool_calls := acc.tool_calls ++ [tool_call_entry tool_name input id] } rest
      (UIAction.add_tool_use tool_name (.dict input) :: r.1, r.2)
  | .toolResult _ _ _ :: rest =>
    handle_assistant_content acc rest

/-- Entry of `handle_message` on an `AssistantMessage`: it starts from the empty record. -/
def handle_assistant_message (content : List ContentBlock) :
    List UIAction × List (String × PyVal) :=
  handle_assistant_content ⟨[], [], []⟩ content

/-- Only the record accumulation of the non-`TodoWrite` steps, for stating
what the flush contains. -/
def accumulate_assistant (acc : AssistantRecord) : List ContentBlock → AssistantRecord
  | [] => acc
  | .text s :: rest =>
    accumulate_assistant { acc with text_blocks := acc.text_blocks ++ [s] } rest
  | .thinking t? :: rest =>
    accumulate_assistant { acc with thinking := acc.thinking ++ [t?.getD ""] } rest
  | .toolUse name input id :: rest =>
    accumulate_assistant
      { acc with
        tool_calls := acc.tool_calls ++ [tool_call_entry (_handle_mcp_tool_use name) input id] }
      rest
  | .toolResult _ _ _ :: rest => accumulate_assistant acc rest

/-- Holds on every content block that is not a `TodoWrite` tool-use. -/
def no_todowrite (c : ContentBlock) : Bool :=
  match c with
  | .toolUse name _ _ => !(name == "TodoWrite")
  | _ => true

/-- Whether `haystack` starts with `needle`, character-wise. -/
def starts_with_chars : List Char → List Char → Bool
  | [], _ => true
  | _ :: _, [] => false
  | a :: as, b :: bs => (a == b) && starts_with_chars as bs

/-- Whether `needle` occurs contiguously anywhere in the second list —
Python's `haystack.find(needle) != -1`. -/
def contains_chars (needle : List Char) : List Char → Bool
  | [] => starts_with_chars needle []
  | b :: bs => starts_with_chars needle (b :: bs) || contains_chars needle bs

/-- The marker test `content.content.find("Todos") != -1` guarded by
`isinstance(content.content, str)`. -/
def py_str_contains_todos (content : PyVal) : Bool :=
  match content with
  | .str s => contains_chars "Todos".toList s.toList
  | _ => false

/-- The `tool_result` record payload (app.py lines 248-252). -/
def tool_result_payload (is_error : Option Bool) (content : PyVal)
    (tool_use_id : Option String) : PyVal :=
  .dict [("is_error", optBool is_error), ("content", json_safe content),
         ("tool_use_id", optStr tool_use_id)]

/-- The `UserMessage` arm of `handle_message` (app.py lines 242-254): each
tool-result block is rendered and recorded, except that a tool-result whose
content is a string containing `"Todos"` makes the method `return`,
producing nothing for it and for everything after it. -/
def handle_user_content : List ContentBlock → List UIAction × List (String × PyVal)
  | [] => ([], [])
  | .toolResult is_error content tool_use_id :: rest =>
    if py_str_contains_todos content then ([], [])
    else
      let r := handle_user_content rest
      (UIAction.add_tool_use_result is_error content :: r.1,
       ("tool_result", tool_result_payload is_error content tool_use_id) :: r.2)
  | .text _ :: rest => handle_user_content rest
  | .thinking _ :: rest => handle_user_content rest
  | .toolUse _ _ _ :: rest => handle_user_content rest

/-- A user-message content block on which the arm returns early. -/
def user_block_stops (c : ContentBlock) : Bool :=
  match c with
  | .toolResult _ content _ => py_str_contains_todos content
  | _ => false

/-- The UI action a processed user-message block produces, if any. -/
def user_action_of : ContentBlock → Option UIAction
  | .toolResult is_error content _ => some (UIAction.add_tool_use_result is_error content)
  | _ => Option.none

/-- The session record a processed user-message block produces, if any. -/
def user_record_of : ContentBlock → Option (String × PyVal)
  | .toolResult is_error content tool_use_id =>
    some ("tool_result", tool_result_payload is_error content tool_use_id)
  | _ => Option.none

mutual

/-- The reduction only produces JSON-representable values. -/
theorem jsonReady_json_safe : (v : PyVal) → jsonReady (json_safe v) = true
  | .dict items => by simp [json_safe, jsonReady, jsonReadyItems_json_safe_items items]
  | .list items => by simp [json_safe, jsonReady, jsonReadyList_json_safe_list items]
  | .str _ => rfl
  | .int _ => rfl
  | .float _ => rfl
  | .bool _ => rfl
  | .none => rfl
  | .path _ => rfl
  | .obj _ => rfl

theorem jsonReadyList_json_safe_list :
    (l : List PyVal) → jsonReadyList (json_safe_list l) = true
  | [] => rfl
  | v :: rest => by
      simp [json_safe_list, jsonReadyList, jsonReady_json_safe v,
        jsonReadyList_json_safe_list rest]

theorem jsonReadyItems_json_safe_items :
    (l : List (String × PyVal)) → jsonReadyItems (json_safe_items l) = true
  | [] => rfl
  | kv :: rest => by
      simp [json_safe_items, jsonReadyItems, jsonReady_json_safe kv.2,
        jsonReadyItems_json_safe_items rest]

end

mutual

/-- The reduction is idempotent on every value. -/
theorem json_safe_idem : (v : PyVal) → json_safe (json_safe v) = json_safe v
  | .dict items => by simp [json_safe, json_safe_items_idem items]
  | .list items => by simp [json_safe, json_safe_list_idem items]
  | .str _ => rfl
  | .int _ => rfl
  | .float _ => rfl
  | .bool _ => rfl
  | .none => rfl
  | .path _ => rfl
  | .obj _ => rfl

theorem json_safe_list_idem :
    (l : List PyVal) → json_safe_list (json_safe_list l) = json_safe_list l
  | [] => rfl
  | v :: rest => by
      simp [json_safe_list, json_safe_idem v, json_safe_list_idem rest]

theorem json_safe_items_idem :
    (l : List (String × PyVal)) → json_safe_items (json_safe_items l) = json_safe_items l
  | [] => rfl
  | kv :: rest => by
      simp [json_safe_items, json_safe_idem kv.2, json_safe_items_idem rest]

end

/-- Claim C6: the JSON-safety reduction `_json_safe` is total (a total Lean
function, embedding a Python routine that returns on every input and never
raises) and idempotent: its result is built only from JSON-representable
primitives, with any other value replaced by its string representation
applied recursively, and re-applying the reduction returns an equal value. -/
theorem C6_json_safe_total_idempotent :
    ∀ v : PyVal, jsonReady (json_safe v) = true ∧ json_safe (json_safe v) = json_safe v :=
  fun v => ⟨jsonReady_json_safe v, json_safe_idem v⟩

/-- Claim C4, counterexample: at 3 600 000 ms (exactly one hour) the code
omits the zero minutes component even though hours is present, printing
`"01h 00s"` where the claimed rule demands `"01h 00m 00s"`. -/
theorem C4_counterexample :
    _format_duration (some 3600000) = "01h 00s" ∧
    format_duration_spec (some 3600000) = "01h 00m 00s" ∧
    _format_duration (some 3600000) ≠ format_duration_spec (some 3600000) := by
  refine ⟨rfl, rfl, ?_⟩
  decide

/-- Claim C4, amended: `_format_duration` follows the stated rule with the
minutes component omitted whenever it is zero, regardless of an hours
component; the claim's concrete examples and the clamping of negative
millisecond counts hold as stated. -/
theorem C4_format_duration_amended :
    (∀ d : Option Int, _format_duration d = format_duration_amended d) ∧
    _format_duration Option.none = "0s" ∧
    _format_duration (some 500) = "00s" ∧
    _format_duration (some 65000) = "01m 05s" ∧
    _format_duration (some 7325000) = "02h 02m 05s" ∧
    _format_duration (some 3000) = "03s" ∧
    _format_duration (some (-5000)) = "00s" := by
  refine ⟨fun d => ?_, rfl, rfl, rfl, rfl, rfl, rfl⟩
  cases d <;> rfl

/-- Claim C5: before the UI runs the action executes synchronously exactly
once; on the owning thread it executes synchronously without invoking the
marshalling primitive; otherwise `call_from_thread` is invoked exactly once,
its success delivers the action without a synchronous run, the specific
"calling from the owning context" `RuntimeError` is recovered by a
synchronous run, and any other exception propagates to the caller. -/
theorem C5_safe_call_dispatch (ui : UIState) (tid : Nat) (marshal : Option PyError) :
    (ui.is_running = false →
      _safe_call ui tid marshal = ⟨1, 0, Option.none⟩) ∧
    (ui.is_running = true → resolved_thread_id ui = some tid →
      _safe_call ui tid marshal = ⟨1, 0, Option.none⟩) ∧
    (ui.is_running = true → resolved_thread_id ui ≠ some tid →
      (marshal = Option.none →
        _safe_call ui tid marshal = ⟨0, 1, Option.none⟩) ∧
      (∀ e : PyError, marshal = some e →
        e.is_runtime_error = true → e.msg_has_call_from_thread = true →
        _safe_call ui tid marshal = ⟨1, 1, Option.none⟩) ∧
      (∀ e : PyError, marshal = some e →
        ¬(e.is_runtime_error = true ∧ e.msg_has_call_from_thread = true) →
        _safe_call ui tid marshal = ⟨0, 1, some e⟩)) := by
  refine ⟨fun hrun => ?_, fun hrun heq => ?_, fun hrun hne => ⟨fun hm => ?_, ?_, ?_⟩⟩
  · simp [_safe_call, hrun]
  · simp [_safe_call, hrun, heq]
  · simp [_safe_call, hrun, hne, hm]
  · rintro e rfl h1 h2
    simp [_safe_call, hrun, hne, h1, h2]
  · rintro e rfl hnot
    rcases e with ⟨rt, cft⟩
    cases rt <;> cases cft
    · simp [_safe_call, hrun, hne]
    · simp [_safe_call, hrun, hne]
    · simp [_safe_call, hrun, hne]
    · exact absurd ⟨rfl, rfl⟩ hnot

/-- Witness for C5 at concrete inputs: UI running, owning thread 7, caller
on thread 3, and the marshalling primitive raising the re-entrancy
`RuntimeError` — recovered by one synchronous run after one marshal call. -/
theorem C5_witness :
    _safe_call ⟨true, some 7, Option.none, Option.none⟩ 3 (some ⟨true, true⟩)
      = ⟨1, 1, Option.none⟩ :=
  ((C5_safe_call_dispatch ⟨true, some 7, Option.none, Option.none⟩ 3
      (some ⟨true, true⟩)).2.2 rfl (by decide)).2.1 ⟨true, true⟩ rfl rfl rfl

/-- Claim C9: resolving the pending approval's slot with `true` yields the
allow verdict and with `false` the deny verdict; the UI handler resolves an
unresolved slot exactly once (Accept at index 0 gives `true`, any other
index gives `false`); a second resolution attempt on an already-resolved
slot raises `InvalidStateError` and never overwrites the stored value the
verdict was computed from. -/
theorem C9_approval_single_resolution :
    prompt_for_tool_approval true = PermissionResult.allow ∧
    prompt_for_tool_approval false = PermissionResult.deny ∧
    (∀ b : Bool, PyFuture.set_result ⟨Option.none⟩ b = .ok ⟨some b⟩) ∧
    handle_list_view_selected ⟨Option.none⟩ 0 = .ok ⟨some true⟩ ∧
    (∀ i : Nat, handle_list_view_selected ⟨Option.none⟩ (i + 1) = .ok ⟨some false⟩) ∧
    (∀ b b₂ : Bool, PyFuture.set_result ⟨some b⟩ b₂ = .error "InvalidStateError") := by
  refine ⟨rfl, rfl, fun b => rfl, rfl, fun i => ?_, fun b b₂ => rfl⟩
  simp [handle_list_view_selected, PyFuture.set_result]

/-- Claim C1, counterexample: with three declared extensions of which the
second one's module fails to import, `init_extensions_from_config`
propagates the import exception to its caller instead of skipping that one
extension, and the third extension is never loaded — the module resolution
happens outside the per-extension `try`. -/
theorem C1_counterexample :
    init_extensions_from_config
      (fun path =>
        if path = "pkg.b" then .error (.importError "pkg.b") else .ok (ext_module_ok path))
      [("a", "pkg.a"), ("b", "pkg.b"), ("c", "pkg.c")] [] true
      = .error (.importError "pkg.b") := by
  rfl

/-- Any exception inside the per-extension `try` is swallowed: when every
processed extension's module resolves, the loop returns `.ok`. -/
theorem init_extensions_loop_ok (env : String → Except PyExn ExtModule) (has_ctx : Bool)
    (enabled : List String) :
    ∀ (config : List (String × String)) (servers : List (Option String × Option String))
      (tools : List String),
      (∀ kp ∈ config, (enabled = [] ∨ kp.1 ∈ enabled) → ∃ m, env kp.2 = .ok m) →
      ∃ out, init_extensions_loop env has_ctx enabled servers tools config = .ok out
  | [], servers, tools, _ => ⟨(servers, tools), rfl⟩
  | (k, path) :: rest, servers, tools, hres => by
    by_cases hskip : enabled ≠ [] ∧ k ∉ enabled
    · have ih := init_extensions_loop_ok env has_ctx enabled rest servers tools
        (fun kp hkp h => hres kp (List.mem_cons_of_mem _ hkp) h)
      simpa [init_extensions_loop, hskip] using ih
    · have hproc : enabled = [] ∨ k ∈ enabled := by
        rcases not_and_or.mp hskip with h | h
        · exact Or.inl (not_not.mp h)
        · exact Or.inr (not_not.mp h)
      obtain ⟨m, hm⟩ := hres (k, path) (List.mem_cons_self _ _) hproc
      have ih := init_extensions_loop_ok env has_ctx enabled rest
        (dict_set servers m.MCP_NAME m.mcp) (tools ++ m.mcp_allowed_tools)
        (fun kp hkp h => hres kp (List.mem_cons_of_mem _ hkp) h)
      simpa [init_extensions_loop, hskip, hm] using ih

/-- Claim C1, amended: an exception raised inside the per-extension `try`
block — recording the exports into the catalog or calling the initializer —
is caught and skips only that extension, so when every processed
extension's module resolves at its module path, loading never raises,
whatever the initializers do; an exception raised while resolving a module,
however, propagates to the caller and aborts the remaining extensions. -/
theorem C1_extension_isolation_amended (env : String → Except PyExn ExtModule)
    (config : List (String × String)) (enabled : List String) (has_ctx : Bool)
    (hres : ∀ kp ∈ config, (enabled = [] ∨ kp.1 ∈ enabled) → ∃ m, env kp.2 = .ok m) :
    ∃ out, init_extensions_from_config env config enabled has_ctx = .ok out :=
  init_extensions_loop_ok env has_ctx enabled config [] [] hres

/-- Witness for C1 at a concrete input: one extension whose initializer
raises both ways — loading still returns a catalog. -/
theorem C1_witness :
    ∃ out, init_extensions_from_config
      (fun path => .ok (ext_module_bad_init path)) [("a", "pkg.a")] [] true = .ok out :=
  C1_extension_isolation_amended (fun path => .ok (ext_module_bad_init path))
    [("a", "pkg.a")] [] true
    (fun kp _ _ => ⟨ext_module_bad_init kp.2, rfl⟩)

/-- Claim C2, counterexample: two declared-and-enabled extensions, the
second raising during its initializer call, the first loading and
initializing cleanly — the returned catalog contains 2 entries, not
`N − 1 = 1`: the failed extension's tool-server was recorded before its
initializer ran and is retained when the initializer raises. -/
theorem C2_counterexample :
    init_extensions_from_config
      (fun path =>
        if path = "pkg.b" then .ok (ext_module_bad_init "b") else .ok (ext_module_ok "a"))
      [("a", "pkg.a"), ("b", "pkg.b")] ["a", "b"] true
      = .ok ([(some "a", some "handle_a"), (some "b", some "handle_b")],
             ["mcp__a__tool", "mcp__b__tool"]) ∧
    (2 : Nat) ≠ 2 - 1 := by
  exact ⟨by rfl, by decide⟩

/-- Assigning an absent key to a Python dict appends the binding. -/
theorem dict_set_of_not_mem {d : List (Option String × Option String)} {k v : Option String}
    (h : k ∉ d.map Prod.fst) : dict_set d k v = d ++ [(k, v)] := by
  unfold dict_set
  rw [if_neg]
  intro hany
  rcases List.any_eq_true.mp hany with ⟨kv, hkv, hbeq⟩
  exact h (List.mem_map.mpr ⟨kv, hkv, beq_iff_eq.mp hbeq⟩)

/-- When every remaining extension is enabled and resolves, with registry
names distinct among themselves and absent from the accumulated catalog,
the loop grows the catalog by exactly one entry per extension — whatever
the initializers do. -/
theorem init_extensions_loop_length (env : String → Except PyExn ExtModule) (has_ctx : Bool)
    (enabled : List String) (config : List (String × String)) :
    ∀ (servers : List (Option String × Option String)) (tools : List String),
      (∀ kp ∈ config, enabled = [] ∨ kp.1 ∈ enabled) →
      (∀ kp ∈ config, ∃ m, env kp.2 = .ok m) →
      (config.map (fun kp => env_name env kp.2)).Nodup →
      (∀ kp ∈ config, env_name env kp.2 ∉ servers.map Prod.fst) →
      ∃ S T, init_extensions_loop env has_ctx enabled servers tools config = .ok (S, T) ∧
        S.length = servers.length + config.length := by
  induction config with
  | nil =>
    intro servers tools _ _ _ _
    exact ⟨servers, tools, rfl, by simp [init_extensions_loop]⟩
  | cons kp rest ih =>
    intro servers tools hen hres hnodup hdisj
    obtain ⟨k, path⟩ := kp
    have hproc := hen (k, path) (List.mem_cons_self _ _)
    have hskip : ¬(enabled ≠ [] ∧ k ∉ enabled) := by
      rcases hproc with h | h
      · exact fun hc => hc.1 h
      · exact fun hc => hc.2 h
    obtain ⟨m, hm⟩ := hres (k, path) (List.mem_cons_self _ _)
    have hname : env_name env path = m.MCP_NAME := by simp [env_name, hm]
    have hknot : m.MCP_NAME ∉ servers.map Prod.fst := by
      have := hdisj (k, path) (List.mem_cons_self _ _)
      rwa [hname] at this
    have hnodup' : (rest.map (fun kp => env_name env kp.2)).Nodup :=
      (List.nodup_cons.mp (by simpa using hnodup)).2
    have hhead : env_name env path ∉ rest.map (fun kp => env_name env kp.2) :=
      (List.nodup_cons.mp (by simpa using hnodup)).1
    have hdisj' : ∀ kp ∈ rest,
        env_name env kp.2 ∉ (servers ++ [(m.MCP_NAME, m.mcp)]).map Prod.fst := by
      intro kp hkp hmem
      rw [List.map_append] at hmem
      rcases List.mem_append.mp hmem with hold | hnew
      · exact hdisj kp (List.mem_cons_of_mem _ hkp) hold
      · have heq : env_name env kp.2 = m.MCP_NAME := by simpa using hnew
        exact hhead (by
          rw [hname]
          exact heq ▸ List.mem_map.mpr ⟨kp, hkp, rfl⟩)
    obtain ⟨S, T, hloop, hlen⟩ := ih (servers ++ [(m.MCP_NAME, m.mcp)])
      (tools ++ m.mcp_allowed_tools)
      (fun kp hkp => hen kp (List.mem_cons_of_mem _ hkp))
      (fun kp hkp => hres kp (List.mem_cons_of_mem _ hkp))
      hnodup' hdisj'
    refine ⟨S, T, ?_, ?_⟩
    · simpa [init_extensions_loop, hskip, hm, dict_set_of_not_mem hknot] using hloop
    · rw [hlen]
      simp
      omega

/-- Claim C2, amended: for every set of `N` declared-and-enabled extensions
whose modules all resolve and whose exported registry names are pairwise
distinct, the catalog returned by `init_extensions_from_config` contains
exactly `N` entries — not `N − 1` when one initializer raises: an extension
whose initializer raises still appears, because its tool-server handle is
recorded into the catalog before the initializer is called and the
catch-and-continue handler retains it. -/
theorem C2_catalog_size_amended (env : String → Except PyExn ExtModule)
    (config : List (String × String)) (enabled : List String) (has_ctx : Bool)
    (hen : ∀ kp ∈ config, enabled = [] ∨ kp.1 ∈ enabled)
    (hres : ∀ kp ∈ config, ∃ m, env kp.2 = .ok m)
    (hnodup : (config.map (fun kp => env_name env kp.2)).Nodup) :
    ∃ S T, init_extensions_from_config env config enabled has_ctx = .ok (S, T) ∧
      S.length = config.length := by
  obtain ⟨S, T, h, hlen⟩ := init_extensions_loop_length env has_ctx enabled config [] []
    hen hres hnodup (by simp)
  exact ⟨S, T, h, by simpa using hlen⟩

/-- Witness for C2 at the concrete two-extension input of the
counterexample: both entries are present, so the catalog has size 2. -/
theorem C2_witness :
    ∃ S T, init_extensions_from_config
      (fun path =>
        if path = "pkg.b" then .ok (ext_module_bad_init "b") else .ok (ext_module_ok "a"))
      [("a", "pkg.a"), ("b", "pkg.b")] ["a", "b"] true = .ok (S, T) ∧
      S.length = 2 :=
  C2_catalog_size_amended
    (fun path =>
      if path = "pkg.b" then .ok (ext_module_bad_init "b") else .ok (ext_module_ok "a"))
    [("a", "pkg.a"), ("b", "pkg.b")] ["a", "b"] true
    (by decide)
    (by intro kp hkp; fin_cases hkp <;> exact ⟨_, rfl⟩)
    (by decide)

/-- Claim C3, counterexample: with an initialized session, a failing
directory creation raises `OSError` out of `_save_session_history` and out
of `on_exit` — there is no local recovery on the shutdown path. -/
theorem C3_counterexample :
    on_exit
      { session_id := some "sid-1", session_started_at := some "t0",
        session_history := [], storage_root := some "/base/.tradex",
        base_cwd := some "/base", cwd := some "/base/workspace/run1" }
      "/proc" ⟨true, false⟩ "t1" = .error PyExn.osError := rfl

/-- Claim C3, amended: the shutdown path through `_save_session_history`
raises out of `on_exit` exactly when the session is initialized and the
underlying write fails; it does not raise when the session id is unset or
when both file operations succeed. -/
theorem C3_save_on_exit_amended (st : AppState) (process_cwd : String) (env : SaveEnv)
    (now : String) :
    (pyFalsyStr st.session_id = true →
      on_exit st process_cwd env now = .ok Option.none) ∧
    (env.mkdir_raises = false → env.dump_raises = false →
      ∃ out, on_exit st process_cwd env now = .ok out) ∧
    (pyFalsyStr st.session_id = false →
      (env.mkdir_raises = true ∨ env.dump_raises = true) →
      on_exit st process_cwd env now = .error PyExn.osError) := by
  refine ⟨fun h => ?_, fun h1 h2 => ?_, fun h hr => ?_⟩
  · simp [on_exit, _save_session_history, h]
  · cases hb : pyFalsyStr st.session_id
    · exact ⟨some
        { root := save_root st process_cwd, session_id := st.session_id.getD "",
          started_at := st.session_started_at, ended_at := now, cwd := st.cwd,
          history := st.session_history },
        by simp [on_exit, _save_session_history, hb, h1, h2]⟩
    · exact ⟨Option.none, by simp [on_exit, _save_session_history, hb]⟩
  · rcases hr with hr | hr
    · simp [on_exit, _save_session_history, h, hr]
    · rcases Bool.eq_false_or_eq_true env.mkdir_raises with hm | hm <;>
        simp [on_exit, _save_session_history, h, hr, hm]

/-- Witness for C3 at a concrete state: uninitialized session saves
nothing, and an initialized session with a failing dump raises. -/
theorem C3_witness :
    on_exit
      { session_id := some "sid-2", session_started_at := some "t0",
        session_history := [], storage_root := Option.none,
        base_cwd := some "/base", cwd := some "/base/workspace/run2" }
      "/proc" ⟨false, true⟩ "t1" = .error PyExn.osError :=
  (C3_save_on_exit_amended
    { session_id := some "sid-2", session_started_at := some "t0",
      session_history := [], storage_root := Option.none,
      base_cwd := some "/base", cwd := some "/base/workspace/run2" }
    "/proc" ⟨false, true⟩ "t1").2.2 rfl (Or.inr rfl)

/-- Claim C10: with the session id unset, `_append_session_event` leaves the
whole application state unchanged for every event kind and payload, and
`_save_session_history` writes nothing and does not raise, whatever the
file system would have done. -/
theorem C10_uninitialized_session_frame (st : AppState) (event : String)
    (payload : PyVal) (now : String) (process_cwd : String) (env : SaveEnv)
    (h : st.session_id = Option.none) :
    _append_session_event st event payload now = st ∧
    _save_session_history st process_cwd env now = .ok Option.none := by
  constructor
  · simp [_append_session_event, pyFalsyStr, h]
  · simp [_save_session_history, pyFalsyStr, h]

/-- Witness for C10 at a concrete pre-initialization state, with a file
system that would fail both operations: the state is unchanged and nothing
is written or raised. -/
theorem C10_witness :
    _append_session_event
      { session_id := Option.none, session_started_at := Option.none,
        session_history := [], storage_root := Option.none,
        base_cwd := Option.none, cwd := Option.none }
      "user_input" (.dict [("text", .str "query balance")]) "t0"
      = { session_id := Option.none, session_started_at := Option.none,
          session_history := [], storage_root := Option.none,
          base_cwd := Option.none, cwd := Option.none } ∧
    _save_session_history
      { session_id := Option.none, session_started_at := Option.none,
        session_history := [], storage_root := Option.none,
        base_cwd := Option.none, cwd := Option.none }
      "/proc" ⟨true, true⟩ "t1" = .ok Option.none :=
  C10_uninitialized_session_frame
    { session_id := Option.none, session_started_at := Option.none,
      session_history := [], storage_root := Option.none,
      base_cwd := Option.none, cwd := Option.none }
    "user_input" (.dict [("text", .str "query balance")]) "t0" "/proc" ⟨true, true⟩ rfl

/-- Claim C7, counterexample: a user message whose first tool-result block
contains the planning-tool marker followed by an ordinary tool-result block
without the marker produces no UI action and no record at all — the second
block, which the claim requires to be rendered and recorded, is dropped by
the early `return`. -/
theorem C7_counterexample :
    handle_user_content
      [ContentBlock.toolResult (some false)
        (.str "Todos have been modified successfully") (some "t1"),
       ContentBlock.toolResult (some false) (.str "ok done") (some "t2")]
      = ([], []) ∧
    py_str_contains_todos (.str "ok done") = false :=
  ⟨rfl, rfl⟩

/-- Claim C7, amended: the user-message arm processes tool-result blocks in
order only up to (and excluding) the first block whose content is a string
containing the planning-tool marker: every tool-result before that point is
rendered as a result block and recorded as a `tool_result` record (error
flag, JSON-safe content, call id), and the marker block together with every
later block — marker or not — produces no UI action and no record. -/
theorem C7_user_tool_results_amended (cs : List ContentBlock) :
    handle_user_content cs =
      ((cs.takeWhile (fun c => !user_block_stops c)).filterMap user_action_of,
       (cs.takeWhile (fun c => !user_block_stops c)).filterMap user_record_of) := by
  induction cs with
  | nil => rfl
  | cons c rest ih =>
    cases c with
    | toolResult e content id =>
      by_cases h : py_str_contains_todos content = true
      · simp [handle_user_content, h, List.takeWhile, user_block_stops]
      · simp [handle_user_content, h, List.takeWhile, user_block_stops,
          user_action_of, user_record_of, ih]
    | text s => simpa [handle_user_content, List.takeWhile, user_block_stops,
        user_action_of, user_record_of] using ih
    | thinking t? => simpa [handle_user_content, List.takeWhile, user_block_stops,
        user_action_of, user_record_of] using ih
    | toolUse n i t => simpa [handle_user_content, List.takeWhile, user_block_stops,
        user_action_of, user_record_of] using ih

/-- Processing an assistant turn whose items reach a `TodoWrite` tool-use
records the flushed `assistant_message` (when it accumulated any content)
followed by the `assistant_todo` record, and nothing from the items after
the `TodoWrite`. -/
theorem handle_assistant_todo_flush (input : List (String × PyVal)) (id : Option String)
    (post : List ContentBlock) :
    ∀ (pre : List ContentBlock) (acc : AssistantRecord), pre.all no_todowrite = true →
      (handle_assistant_content acc
          (pre ++ ContentBlock.toolUse "TodoWrite" input id :: post)).2
        = (if assistant_record_nonempty (accumulate_assistant acc pre) then
            [("assistant_message", assistant_payload (accumulate_assistant acc pre))]
          else [])
            ++ [("assistant_todo",
                  todo_record_payload (todos_of input) (indicator_of (todos_of input)))] := by
  intro pre
  induction pre with
  | nil =>
    intro acc _
    simp [handle_assistant_content, accumulate_assistant]
  | cons c rest ih =>
    intro acc hall
    have hc : no_todowrite c = true ∧ rest.all no_todowrite = true := by
      simpa [List.all_cons] using hall
    cases c with
    | text s =>
      simpa [handle_assistant_content, accumulate_assistant] using
        ih { acc with text_blocks := acc.text_blocks ++ [s] } hc.2
    | thinking t? =>
      simpa [handle_assistant_content, accumulate_assistant] using
        ih { acc with thinking := acc.thinking ++ [t?.getD ""] } hc.2
    | toolUse name i t =>
      have hname : (name == "TodoWrite") = false := by
        simpa [no_todowrite] using hc.1
      simpa [handle_assistant_content, accumulate_assistant, hname] using
        ih { acc with
              tool_calls := acc.tool_calls ++ [tool_call_entry (_handle_mcp_tool_use name) i t] }
          hc.2
    | toolResult e co t =>
      simpa [handle_assistant_content, accumulate_assistant] using ih acc hc.2

/-- Claim C8: for an assistant message whose content items are any prefix
without a planning tool-use, then a `TodoWrite` tool-use, then anything:
`handle_message` appends the accumulated `assistant_message` record exactly
when it has text, tool-call or thinking content, then appends the
`assistant_todo` record, and appends nothing for the remaining items — the
records appear in the order the triggering items were observed. -/
theorem C8_todowrite_terminates_turn (pre post : List ContentBlock)
    (input : List (String × PyVal)) (id : Option String)
    (hpre : pre.all no_todowrite = true) :
    (handle_assistant_message (pre ++ ContentBlock.toolUse "TodoWrite" input id :: post)).2
      = (if assistant_record_nonempty (accumulate_assistant ⟨[], [], []⟩ pre) then
          [("assistant_message", assistant_payload (accumulate_assistant ⟨[], [], []⟩ pre))]
        else [])
          ++ [("assistant_todo",
                todo_record_payload (todos_of input) (indicator_of (todos_of input)))] :=
  handle_assistant_todo_flush input id post pre ⟨[], [], []⟩ hpre

/-- Witness for C8 at a concrete assistant turn: a text block and a
thinking block precede the `TodoWrite`; a trailing text block follows it.
The records are the flushed `assistant_message` followed by the
`assistant_todo`, and nothing from the trailing block. -/
theorem C8_witness :
    ([ContentBlock.text "分析中", ContentBlock.thinking Option.none].all
        no_todowrite = true) ∧
    (handle_assistant_message
        ([ContentBlock.text "分析中", ContentBlock.thinking Option.none]
          ++ ContentBlock.toolUse "TodoWrite"
              [("todos", .list [.dict [("content", .str "查询行情"),
                ("status", .str "in_progress")]])] (some "t9")
            :: [ContentBlock.text "之后的内容"])).2
      = [("assistant_message",
           .dict [("text_blocks", .list [.str "分析中"]),
                  ("tool_calls", .list []),
                  ("thinking", .list [.str ""])]),
         ("assistant_todo",
           .dict [("todos", .list [.dict [("content", .str "查询行情"),
                    ("status", .str "in_progress")]]),
                  ("indicator", .str "正在查询行情")])] :=
  ⟨rfl,
   C8_todowrite_terminates_turn
     [ContentBlock.text "分析中", ContentBlock.thinking Option.none]
     [ContentBlock.text "之后的内容"]
     [("todos", .list [.dict [("content", .str "查询行情"), ("status", .str "in_progress")]])]
     (some "t9") rfl⟩

end Tradex
